import Mathlib

/-!
Shallow embedding of the song-picker server of this repository.

The server code (route file) defines:
  * a fixed in-memory catalog `songs` of seven records
    `{ id, name, artist }`;
  * a middleware `authMiddleware` that attaches the constant context
    `{ user: 1 }` to every request;
  * a server function `$getRandomSong` whose handler first awaits
    `db.execute(sql "SELECT 1")` (a liveness probe against the backing
    store; a failure of that call is rethrown unmodified) and then
    returns `songs[Math.floor(Math.random() * songs.length)]`.

The embedding below renders the handler as a pure function of
  * the catalog (a `List SongRecord`),
  * the probe outcome (an `Except` value: the rows on success, the
    thrown error on failure),
  * the value `r` drawn from the random source (`Math.random()`
    returns a double, hence a rational, in `[0, 1)`; we model it as
    a rational and, where a claim speaks of real numbers, state the
    property over `ℝ` directly).
JavaScript array indexing that misses (negative index or index beyond
the last element) evaluates to `undefined`; `jsIndex` models that with
`Option`, returning `none` for a miss.
-/

structure SongRecord where
  id : Nat
  name : String
  artist : String
deriving Repr, DecidableEq

/-- The fixed catalog, copied record by record from the route file. -/
def songs : List SongRecord :=
  [ ⟨1, "Teenage Dirtbag", "Wheatus"⟩,
    ⟨2, "Smells Like Teen Spirit", "Nirvana"⟩,
    ⟨3, "The Middle", "Jimmy Eat World"⟩,
    ⟨4, "My Own Worst Enemy", "Lit"⟩,
    ⟨5, "Fat Lip", "Sum 41"⟩,
    ⟨6, "All the Small Things", "blink-182"⟩,
    ⟨7, "Beverly Hills", "Weezer"⟩ ]

/-- Errors a pick can surface.  The code only ever rethrows the backing
store failure; `emptyCatalog` exists in the error vocabulary of the
specification and is included so that statements about it can be made. -/
inductive ServerError where
  | backingStoreUnavailable (msg : String)
  | emptyCatalog
deriving Repr, DecidableEq

/-- Rows returned by `db.execute` on success; the handler discards them,
so their shape is irrelevant — we keep an opaque payload. -/
abbrev QueryRows := List Int

/-- Outcome of one handler invocation: either an error was thrown, or
the function returned a value (`none` models JavaScript `undefined`). -/
inductive HandlerResult where
  | thrown (e : ServerError)
  | returned (v : Option SongRecord)
deriving Repr, DecidableEq

/-- An incoming request; the handler takes no parameters, so only an
opaque payload is carried (used to state that the output is independent
of the request's content). -/
structure Request where
  payload : String
deriving Repr, DecidableEq

/-- The request context assembled by middleware. -/
structure Context where
  user : Nat
deriving Repr, DecidableEq

/-- Embedding of `authMiddleware`: it calls `next` with the constant
context `{ user: 1 }`, for every request. -/
def authMiddleware (_req : Request) : Context := ⟨1⟩

/-- JavaScript array indexing `xs[i]` for an integer `i`: `undefined`
(`none`) when `i` is negative or past the end. -/
def jsIndex (xs : List SongRecord) (i : ℤ) : Option SongRecord :=
  if 0 ≤ i then xs[i.toNat]? else none

/-- Embedding of the handler of `$getRandomSong`, parameterized by the
context the middleware attached, the catalog, the probe outcome and the
random draw `r`.  It mirrors the source line by line: a failed
`db.execute` rethrows; otherwise the rows are discarded and the
function returns `catalog[Math.floor(r * catalog.length)]`. -/
def handlerBody (_ctx : Context) (catalog : List SongRecord)
    (probe : Except ServerError QueryRows) (r : ℚ) : HandlerResult :=
  match probe with
  | .error e => .thrown e
  | .ok _ => .returned (jsIndex catalog ⌊r * (catalog.length : ℚ)⌋)

/-- Process-wide server state: the module-level `songs` binding. -/
structure ServerState where
  catalog : List SongRecord
deriving Repr, DecidableEq

/-- The state at process start: the catalog literal has been evaluated. -/
def initialState : ServerState := ⟨songs⟩

/-- Reading the catalog: returns its contents and leaves the state
untouched (the module never exposes a mutator). -/
def readCatalog (st : ServerState) : List SongRecord × ServerState :=
  (st.catalog, st)

/-- One full invocation of `$getRandomSong` in state-passing form:
middleware runs first, the handler body runs on the catalog held in the
state, and the resulting state is returned alongside the outcome. -/
def getRandomSongSt (st : ServerState) (req : Request)
    (probe : Except ServerError QueryRows) (r : ℚ) :
    HandlerResult × ServerState :=
  (handlerBody (authMiddleware req) st.catalog probe r, st)

/-- One invocation of `$getRandomSong` against the process's actual
state (the fixed seven-record catalog). -/
def getRandomSong (req : Request) (probe : Except ServerError QueryRows)
    (r : ℚ) : HandlerResult :=
  (getRandomSongSt initialState req probe r).1

/-- The operation `pickRandomSong` of the specification: the same
handler body run over a given catalog (the middleware context is the
constant one and is ignored by the body). -/
def pickRandomSong (catalog : List SongRecord)
    (probe : Except ServerError QueryRows) (r : ℚ) : HandlerResult :=
  handlerBody ⟨1⟩ catalog probe r

/-- The data-model invariant of section 3 of the specification. -/
def catalogInvariant (xs : List SongRecord) : Prop :=
  1 ≤ xs.length ∧
  (∀ s ∈ xs, 0 < s.id) ∧
  (xs.map SongRecord.id).Nodup ∧
  (∀ s ∈ xs, s.name ≠ "" ∧ s.artist ≠ "")

instance : DecidablePred catalogInvariant := fun xs => by
  unfold catalogInvariant; infer_instance

/-- The two-record catalog of the specification's concrete scenario. -/
def scenarioCatalog : List SongRecord :=
  [ ⟨1, "Teenage Dirtbag", "Wheatus"⟩,
    ⟨2, "Smells Like Teen Spirit", "Nirvana"⟩ ]

/-! ## Helper lemmas -/

/-- With `0 ≤ r < 1` and a non-empty catalog, the scaled-and-floored
index lands on an actual element, which is a member of the catalog. -/
theorem jsIndex_floor_mem (catalog : List SongRecord) (r : ℚ)
    (h0 : 0 ≤ r) (h1 : r < 1) (hne : catalog ≠ []) :
    ∃ s, jsIndex catalog ⌊r * (catalog.length : ℚ)⌋ = some s ∧
      s ∈ catalog := by
  have hlen : 0 < catalog.length := List.length_pos.mpr hne
  have hmulnn : (0 : ℚ) ≤ r * (catalog.length : ℚ) :=
    mul_nonneg h0 (by positivity)
  have hfl0 : 0 ≤ ⌊r * (catalog.length : ℚ)⌋ := Int.floor_nonneg.mpr hmulnn
  have hmullt : r * (catalog.length : ℚ) < (catalog.length : ℚ) := by
    have : r * (catalog.length : ℚ) < 1 * (catalog.length : ℚ) :=
      mul_lt_mul_of_pos_right h1 (by exact_mod_cast hlen)
    simpa using this
  have hfllt : ⌊r * (catalog.length : ℚ)⌋ < (catalog.length : ℤ) :=
    Int.floor_lt.mpr (by exact_mod_cast hmullt)
  have hnat : (⌊r * (catalog.length : ℚ)⌋).toNat < catalog.length := by
    omega
  refine ⟨catalog[(⌊r * (catalog.length : ℚ)⌋).toNat], ?_, ?_⟩
  · simp [jsIndex, hfl0, List.getElem?_eq_getElem hnat]
  · exact List.getElem_mem hnat

/-! ## Claims -/

/-- Claim C1: for every value of the random source `r` with
`0 ≤ r < 1`, if the liveness query succeeds then `$getRandomSong`
returns a record that is a member of the (non-empty) `songs` catalog,
and in particular its `id` is a member of the catalog's id set. -/
theorem c1_pick_returns_catalog_member (req : Request) (rows : QueryRows)
    (r : ℚ) (h0 : 0 ≤ r) (h1 : r < 1) :
    ∃ s, getRandomSong req (.ok rows) r = .returned (some s) ∧
      s ∈ songs ∧ s.id ∈ songs.map SongRecord.id := by
  obtain ⟨s, hs, hmem⟩ := jsIndex_floor_mem songs r h0 h1 (by decide)
  refine ⟨s, ?_, hmem, List.mem_map_of_mem _ hmem⟩
  simp [getRandomSong, getRandomSongSt, handlerBody, initialState, hs]

theorem c1_witness :
    (0 : ℚ) ≤ 1/2 ∧ (1/2 : ℚ) < 1 ∧
    ∃ s, getRandomSong ⟨""⟩ (.ok [1]) (1/2) = .returned (some s) ∧
      s ∈ songs ∧ s.id ∈ songs.map SongRecord.id :=
  ⟨by norm_num, by norm_num,
    c1_pick_returns_catalog_member ⟨""⟩ [1] (1/2) (by norm_num) (by norm_num)⟩

/-- Claim C2, counterexample: run on a zero-entry catalog (with the
probe succeeding), the handler does not signal `emptyCatalog`; it
completes normally with `undefined` (the source contains no emptiness
check at all). -/
theorem c2_counterexample :
    pickRandomSong [] (.ok [1]) 0 = .returned none ∧
    pickRandomSong [] (.ok [1]) 0 ≠ .thrown .emptyCatalog := by
  have hidx : ∀ i : ℤ, jsIndex [] i = none := by
    intro i
    unfold jsIndex
    split <;> simp
  constructor
  · simp [pickRandomSong, handlerBody, hidx]
  · simp [pickRandomSong, handlerBody, hidx]

/-- Claim C2 (amended): if the catalog has zero entries at invocation
time, `$getRandomSong` never returns a catalog record — it evaluates to
`undefined` — but it does not signal an `EmptyCatalog` error, because
the handler performs no emptiness check. -/
theorem c2_empty_catalog_returns_undefined (rows : QueryRows) (r : ℚ) :
    pickRandomSong [] (.ok rows) r = .returned none ∧
    pickRandomSong [] (.ok rows) r ≠ .thrown .emptyCatalog := by
  have hidx : ∀ i : ℤ, jsIndex [] i = none := by
    intro i
    unfold jsIndex
    split <;> simp
  constructor
  · simp [pickRandomSong, handlerBody, hidx]
  · simp [pickRandomSong, handlerBody, hidx]

/-- Claim C3: if the liveness query fails, `$getRandomSong` never
returns a song record; the `BackingStoreUnavailable` error propagates
unmodified to the caller. -/
theorem c3_probe_failure_propagates (req : Request) (msg : String)
    (r : ℚ) :
    getRandomSong req (.error (.backingStoreUnavailable msg)) r =
      .thrown (.backingStoreUnavailable msg) ∧
    ∀ v, getRandomSong req (.error (.backingStoreUnavailable msg)) r ≠
      .returned v := by
  refine ⟨rfl, fun v h => ?_⟩
  simp [getRandomSong, getRandomSongSt, handlerBody] at h

/-- Claim C4: the selection index is drawn uniformly from
`[0, songs.length)`: for every index `i < songs.length` (= 7), the set
of random reals `r` in `[0,1)` with `⌊r * songs.length⌋ = i` is exactly
the interval `[i/7, (i+1)/7)`, whose Lebesgue measure is `1/7`, so each
catalog entry is selected by an equal share of the random source. -/
theorem c4_uniform_index_share (i : ℕ) (hi : i < songs.length) :
    {r : ℝ | r ∈ Set.Ico (0 : ℝ) 1 ∧
        ⌊r * (songs.length : ℝ)⌋ = (i : ℤ)} =
      Set.Ico ((i : ℝ) / (songs.length : ℝ))
        (((i : ℝ) + 1) / (songs.length : ℝ)) ∧
    MeasureTheory.volume
        (Set.Ico ((i : ℝ) / (songs.length : ℝ))
          (((i : ℝ) + 1) / (songs.length : ℝ)))
      = ENNReal.ofReal (1 / (songs.length : ℝ)) := by
  have h7 : songs.length = 7 := rfl
  have hlen : (0 : ℝ) < (songs.length : ℝ) := by
    rw [h7]; norm_num
  have key : ∀ r : ℝ, ⌊r * (songs.length : ℝ)⌋ = (i : ℤ) ↔
      ((i : ℝ) / (songs.length : ℝ) ≤ r ∧
        r < ((i : ℝ) + 1) / (songs.length : ℝ)) := by
    intro r
    rw [Int.floor_eq_iff, div_le_iff hlen, lt_div_iff hlen]
    push_cast
    constructor
    · rintro ⟨a, b⟩
      exact ⟨by linarith, by linarith⟩
    · rintro ⟨a, b⟩
      exact ⟨by linarith, by linarith⟩
  constructor
  · ext r
    simp only [Set.mem_setOf_eq, Set.mem_Ico, key r]
    constructor
    · rintro ⟨-, h⟩
      exact h
    · rintro ⟨ha, hb⟩
      refine ⟨⟨?_, ?_⟩, ha, hb⟩
      · have hnn : (0 : ℝ) ≤ (i : ℝ) / (songs.length : ℝ) := by positivity
        linarith
      · have hub : ((i : ℝ) + 1) / (songs.length : ℝ) ≤ 1 := by
          rw [div_le_one hlen]
          have hcast : (i : ℝ) + 1 ≤ (songs.length : ℝ) := by
            exact_mod_cast Nat.succ_le_of_lt hi
          linarith
        linarith
  · rw [Real.volume_Ico]
    congr 1
    rw [div_sub_div_same]
    norm_num

theorem c4_witness :
    3 < songs.length ∧
    ({r : ℝ | r ∈ Set.Ico (0 : ℝ) 1 ∧
        ⌊r * (songs.length : ℝ)⌋ = ((3 : ℕ) : ℤ)} =
      Set.Ico (((3 : ℕ) : ℝ) / (songs.length : ℝ))
        ((((3 : ℕ) : ℝ) + 1) / (songs.length : ℝ)) ∧
    MeasureTheory.volume
        (Set.Ico (((3 : ℕ) : ℝ) / (songs.length : ℝ))
          ((((3 : ℕ) : ℝ) + 1) / (songs.length : ℝ)))
      = ENNReal.ofReal (1 / (songs.length : ℝ))) :=
  ⟨by decide, c4_uniform_index_share 3 (by decide)⟩

/-- Claim C5: the catalog array access is always in bounds: for every
real `r` with `0 ≤ r < 1`, `⌊r * songs.length⌋` is an integer index
with `0 ≤ index < songs.length`, so the indexing never goes out of
range, including at the upper boundary of the random range. -/
theorem c5_floor_index_in_bounds (r : ℝ) (h0 : 0 ≤ r) (h1 : r < 1) :
    0 ≤ ⌊r * (songs.length : ℝ)⌋ ∧
    ⌊r * (songs.length : ℝ)⌋ < (songs.length : ℤ) := by
  have h7 : songs.length = 7 := rfl
  have hlen : (0 : ℝ) < (songs.length : ℝ) := by
    rw [h7]; norm_num
  constructor
  · exact Int.floor_nonneg.mpr (mul_nonneg h0 hlen.le)
  · apply Int.floor_lt.mpr
    push_cast
    nlinarith

theorem c5_witness :
    (0 : ℝ) ≤ 1/2 ∧ (1/2 : ℝ) < 1 ∧
    (0 ≤ ⌊(1/2 : ℝ) * (songs.length : ℝ)⌋ ∧
      ⌊(1/2 : ℝ) * (songs.length : ℝ)⌋ < (songs.length : ℤ)) :=
  ⟨by norm_num, by norm_num,
    c5_floor_index_in_bounds (1/2) (by norm_num) (by norm_num)⟩

/-- Claim C6: the catalog satisfies the data-model invariants at
construction and after any invocation: cardinality ≥ 1, every id a
positive integer, ids pairwise distinct, every name and artist
non-empty. -/
theorem c6_catalog_data_model_invariants :
    catalogInvariant initialState.catalog ∧
    ∀ (req : Request) (probe : Except ServerError QueryRows) (r : ℚ),
      catalogInvariant (getRandomSongSt initialState req probe r).2.catalog := by
  have h : catalogInvariant songs := by decide
  exact ⟨h, fun _ _ _ => h⟩

/-- Claim C7: no operation mutates the catalog: every invocation of
`$getRandomSong` leaves the server state exactly as it was, and reading
the catalog twice in sequence yields identical ordered contents. -/
theorem c7_no_catalog_mutation (st : ServerState) (req : Request)
    (probe : Except ServerError QueryRows) (r : ℚ) :
    (getRandomSongSt st req probe r).2 = st ∧
    (readCatalog (readCatalog st).2).1 = (readCatalog st).1 :=
  ⟨rfl, rfl⟩

/-- Claim C8: in the concrete scenario with the two-record catalog
(ids 1 and 2) and a succeeding liveness probe, `pickRandomSong` returns
a record whose id is 1 or 2, never any other id, and never an error. -/
theorem c8_concrete_scenario (rows : QueryRows) (r : ℚ)
    (h0 : 0 ≤ r) (h1 : r < 1) :
    ∃ s, pickRandomSong scenarioCatalog (.ok rows) r =
        .returned (some s) ∧ (s.id = 1 ∨ s.id = 2) ∧
      ∀ e, pickRandomSong scenarioCatalog (.ok rows) r ≠ .thrown e := by
  obtain ⟨s, hs, hmem⟩ :=
    jsIndex_floor_mem scenarioCatalog r h0 h1 (by decide)
  refine ⟨s, ?_, ?_, ?_⟩
  · simp [pickRandomSong, handlerBody, hs]
  · simp only [scenarioCatalog, List.mem_cons, List.not_mem_nil,
      or_false] at hmem
    rcases hmem with h | h <;> subst h <;> simp
  · intro e h
    simp [pickRandomSong, handlerBody] at h

theorem c8_witness :
    (0 : ℚ) ≤ 1/2 ∧ (1/2 : ℚ) < 1 ∧
    ∃ s, pickRandomSong scenarioCatalog (.ok [1]) (1/2) =
        .returned (some s) ∧ (s.id = 1 ∨ s.id = 2) ∧
      ∀ e, pickRandomSong scenarioCatalog (.ok [1]) (1/2) ≠ .thrown e :=
  ⟨by norm_num, by norm_num,
    c8_concrete_scenario [1] (1/2) (by norm_num) (by norm_num)⟩

/-- Claim C9: the liveness query's result is discarded: two successful
executions whose backing store returned different query results but
whose random draw is the same return the same song record. -/
theorem c9_probe_rows_discarded (req : Request) (rows₁ rows₂ : QueryRows)
    (r : ℚ) (hne : rows₁ ≠ rows₂) :
    getRandomSong req (.ok rows₁) r = getRandomSong req (.ok rows₂) r :=
  rfl

theorem c9_witness :
    ([1] : QueryRows) ≠ ([2] : QueryRows) ∧
    getRandomSong ⟨"a"⟩ (.ok [1]) 0 = getRandomSong ⟨"a"⟩ (.ok [2]) 0 :=
  ⟨by decide, c9_probe_rows_discarded ⟨"a"⟩ [1] [2] 0 (by decide)⟩

/-- Claim C10: `authMiddleware` attaches the constant identity
`user = 1` to every request, the handler never reads it, and two
invocations with equal random draws and a healthy backing store return
identical results regardless of request content. -/
theorem c10_identity_ignored (req₁ req₂ : Request) (rows : QueryRows)
    (r : ℚ) :
    (authMiddleware req₁).user = 1 ∧
    getRandomSong req₁ (.ok rows) r = getRandomSong req₂ (.ok rows) r :=
  ⟨rfl, rfl⟩
